import Mathlib

/-!
# WinTech demo platform: shallow embedding

A shallow embedding of the WinTech AI sales-agent demo platform
(`server.js` and the browser chat widget), covering the data model and the
operations that the behavioural claims talk about:

* the prospect store (a single `prospects` table with a serial primary key),
* the `/chat` relay handler (lookup, text-generation call, speech-synthesis
  call, base64 data URI),
* the `/` landing handler,
* the `/admin` listing (`SELECT * FROM prospects ORDER BY id DESC`),
* the browser widget's `sendMessage` and `playAudio` functions.

External services (the text-generation API and the speech-synthesis API) are
modelled as oracles `List Msg → Except Unit String` and
`String → Except Unit (List Nat)`: an `Except.error` stands for any failure
(network error, non-success status, malformed payload), all of which land in
the handler's single `catch` block.
-/

/-- A role-tagged chat message, as exchanged with the text-generation API and
held in the widget's `chatHistory` array. -/
structure Msg where
  role : String
  content : String
  deriving Repr, DecidableEq

/-- A row of the `prospects` table:
`id SERIAL PRIMARY KEY, name TEXT, system_prompt TEXT, unique_id TEXT UNIQUE`. -/
structure Prospect where
  id : Nat
  name : String
  system_prompt : String
  unique_id : String
  deriving Repr, DecidableEq

/-- The JSON body of a `POST /chat` request, as destructured by
`const { userMessage, chatHistory, prospectId } = req.body`.  Fields that may
be absent from the JSON are `Option`s; a JS falsy check `!prospectId` is true
for both `none` (absent) and `some ""` (present but empty). -/
structure ChatBody where
  userMessage : String
  chatHistory : Option (List Msg)
  prospectId : Option String
  deriving Repr, DecidableEq

/-- What `POST /chat` answers: `res.json({ textResponse, audioData })` on
success (HTTP 200), or `res.status(s).json({ error })` on failure. -/
inductive ChatResponse where
  | ok (textResponse : String) (audioData : String)
  | err (status : Nat) (error : String)
  deriving Repr, DecidableEq

/-- The observable outcome of one `/chat` turn: the HTTP response together
with the side effects the handler performed — the `unique_id` it queried the
store with (if any), the message sequence it sent to the text-generation
service (if any), and the text it sent to the speech-synthesis service
(if any). -/
structure ChatOutcome where
  response : ChatResponse
  dbQuery : Option String
  llmRequest : Option (List Msg)
  ttsRequest : Option String
  deriving Repr, DecidableEq

/-- `SELECT ... FROM prospects WHERE unique_id = $1` followed by the
`rows.length === 0` check: with `unique_id` UNIQUE, an exact-match lookup. -/
def findProspect (db : List Prospect) (pid : String) : Option Prospect :=
  db.find? (fun p => p.unique_id == pid)

/-- The base64 alphabet used by Node's `Buffer.prototype.toString('base64')`. -/
def base64Alphabet : List Char :=
  [ 'A', 'B', 'C', 'D', 'E', 'F', 'G', 'H', 'I', 'J', 'K', 'L', 'M',
    'N', 'O', 'P', 'Q', 'R', 'S', 'T', 'U', 'V', 'W', 'X', 'Y', 'Z',
    'a', 'b', 'c', 'd', 'e', 'f', 'g', 'h', 'i', 'j', 'k', 'l', 'm',
    'n', 'o', 'p', 'q', 'r', 's', 't', 'u', 'v', 'w', 'x', 'y', 'z',
    '0', '1', '2', '3', '4', '5', '6', '7', '8', '9', '+', '/' ]

/-- The base64 digit for a 6-bit group. -/
def b64Char (n : Nat) : Char :=
  base64Alphabet.getD n 'A'

/-- `Buffer.from(bytes).toString('base64')`: standard base64 with `=`
padding, three input bytes per four output characters. -/
def base64Encode : List Nat → List Char
  | [] => []
  | [a] =>
      [b64Char (a % 256 / 4), b64Char (a % 4 * 16), '=', '=']
  | [a, b] =>
      [b64Char (a % 256 / 4), b64Char (a % 4 * 16 + b % 256 / 16),
       b64Char (b % 16 * 4), '=']
  | a :: b :: c :: rest =>
      b64Char (a % 256 / 4) :: b64Char (a % 4 * 16 + b % 256 / 16) ::
      b64Char (b % 16 * 4 + c % 256 / 64) :: b64Char (c % 64) ::
      base64Encode rest

/-- The body of `app.post('/chat')` in `server.js`, with the two `axios`
calls abstracted as oracles.

Control flow, in source order:
1. `if (!prospectId) return res.status(400).json({error:'Missing Prospect ID'})`
   — JS falsy, so absent and empty string alike, before any store access;
2. the store lookup; empty result → 404 `'Prospect brain not found'`;
3. the text-generation payload
   `[{role:'system',content:SYSTEM_PROMPT}, ...chatHistory, {role:'user',content:userMessage}]`.
   When `chatHistory` is absent from the body, `...chatHistory` spreads
   `undefined` and throws a `TypeError` before the request is issued; the
   `catch` turns it into the generic 500, with no external call made;
4. any failure of either external call is caught by the same `catch` and
   becomes `res.status(500).json({error:'Failed to get AI response'})`;
5. on success, `res.json({textResponse, audioData:` the base64 data URI `})`. -/
def chatHandler (db : List Prospect) (body : ChatBody)
    (llm : List Msg → Except Unit String)
    (tts : String → Except Unit (List Nat)) : ChatOutcome :=
  match body.prospectId with
  | none => ⟨.err 400 "Missing Prospect ID", none, none, none⟩
  | some pid =>
    if pid = "" then
      ⟨.err 400 "Missing Prospect ID", none, none, none⟩
    else
      match findProspect db pid with
      | none => ⟨.err 404 "Prospect brain not found", some pid, none, none⟩
      | some p =>
        match body.chatHistory with
        | none => ⟨.err 500 "Failed to get AI response", some pid, none, none⟩
        | some history =>
          let messages : List Msg :=
            ⟨"system", p.system_prompt⟩ ::
              (history ++ [⟨"user", body.userMessage⟩])
          match llm messages with
          | .error _ =>
              ⟨.err 500 "Failed to get AI response", some pid, some messages, none⟩
          | .ok textResponse =>
            match tts textResponse with
            | .error _ =>
                ⟨.err 500 "Failed to get AI response", some pid, some messages,
                 some textResponse⟩
            | .ok audioBytes =>
                ⟨.ok textResponse
                   ("data:audio/mpeg;base64," ++ String.mk (base64Encode audioBytes)),
                 some pid, some messages, some textResponse⟩

/-- What `GET /` answers: the generic 404 for a missing/invalid link, the
404 for an unknown prospect, or the rendered `demo` page with
`prospectName` and `prospectId`. -/
inductive LandingResponse where
  | notFoundLink
  | notFound
  | page (prospectName : String) (prospectId : String)
  deriving Repr, DecidableEq

/-- HTTP status of a landing response (`res.status(404).send(...)` on both
not-found branches, 200 on a render). -/
def landingStatus : LandingResponse → Nat
  | .notFoundLink => 404
  | .notFound => 404
  | .page _ _ => 200

/-- The observable outcome of one `GET /` request: the response together
with the `unique_id` the handler queried the store with, if any. -/
structure LandingOutcome where
  response : LandingResponse
  dbQuery : Option String
  deriving Repr, DecidableEq

/-- The body of `app.get('/')` in `server.js`: `req.query.prospect` falsy
(absent, or the empty string from `?prospect=`) → 404 before any store
access; unknown id → 404; otherwise render `demo` with the prospect's name
and `unique_id`. -/
def landingHandler (db : List Prospect) (prospectQuery : Option String) :
    LandingOutcome :=
  match prospectQuery with
  | none => ⟨.notFoundLink, none⟩
  | some pid =>
    if pid = "" then
      ⟨.notFoundLink, none⟩
    else
      match findProspect db pid with
      | none => ⟨.notFound, some pid⟩
      | some p => ⟨.page p.name p.unique_id, some pid⟩

/-- The prospect store with its serial primary key: `nextId` is the next
value of the `SERIAL` sequence, `rows` the table in insertion order. -/
structure ProspectStore where
  nextId : Nat
  rows : List Prospect
  deriving Repr, DecidableEq

/-- A freshly created table (`CREATE TABLE IF NOT EXISTS prospects ...`):
no rows, serial sequence starting at 1. -/
def emptyStore : ProspectStore := ⟨1, []⟩

/-- `INSERT INTO prospects (name, system_prompt, unique_id) VALUES ($1,$2,$3)`
from `app.post('/admin/create')`: the serial key assigns the next id. -/
def createProspect (s : ProspectStore) (name system_prompt unique_id : String) :
    ProspectStore :=
  ⟨s.nextId + 1, s.rows ++ [⟨s.nextId, name, system_prompt, unique_id⟩]⟩

/-- Insert one row into a list already sorted by descending id. -/
def insertDescById (p : Prospect) : List Prospect → List Prospect
  | [] => [p]
  | q :: qs => if q.id ≤ p.id then p :: q :: qs else q :: insertDescById p qs

/-- `ORDER BY id DESC`: sort rows by descending id (ids are unique, so the
order is fully determined). -/
def orderByIdDesc : List Prospect → List Prospect
  | [] => []
  | p :: ps => insertDescById p (orderByIdDesc ps)

/-- `SELECT * FROM prospects ORDER BY id DESC` from `app.get('/admin')`:
the rows handed to the dashboard template. -/
def adminList (s : ProspectStore) : List Prospect :=
  orderByIdDesc s.rows

/-- Run a sequence of admin create operations (name, prompt, unique id)
against the empty store. -/
def buildStore (ops : List (String × String × String)) : ProspectStore :=
  ops.foldl (fun s op => createProspect s op.1 op.2.1 op.2.2) emptyStore

/-- The code points removed by JavaScript's `String.prototype.trim`:
WhiteSpace (tab, VT, FF, space, NBSP, BOM and the Unicode space separators)
and LineTerminator (LF, CR, LS, PS). -/
def jsIsWhitespace (c : Char) : Bool :=
  c.val == 0x09 || c.val == 0x0A || c.val == 0x0B || c.val == 0x0C ||
  c.val == 0x0D || c.val == 0x20 || c.val == 0xA0 || c.val == 0x1680 ||
  (0x2000 ≤ c.val && c.val ≤ 0x200A) || c.val == 0x2028 || c.val == 0x2029 ||
  c.val == 0x202F || c.val == 0x205F || c.val == 0x3000 || c.val == 0xFEFF

/-- `String.prototype.trim`: strip leading and trailing JS whitespace. -/
def jsTrim (s : String) : String :=
  String.mk ((((s.data.dropWhile jsIsWhitespace).reverse).dropWhile jsIsWhitespace).reverse)

/-- The browser's audio subsystem as the widget sees it: the `Audio`
instances created so far (`true` = playing) and the widget's `currentAudio`
variable, an index into `instances` (or `none`, its initial `null`). -/
structure AudioSys where
  instances : List Bool
  current : Option Nat
  deriving Repr, DecidableEq

/-- The widget before any playback: no `Audio` instance, `currentAudio = null`. -/
def initAudio : AudioSys := ⟨[], none⟩

/-- The widget's `playAudio`:
`if (currentAudio) currentAudio.pause(); currentAudio = new Audio(audioData);
currentAudio.play();` — pause the current instance if any, then create a new
playing instance and point `currentAudio` at it. -/
def playAudio (s : AudioSys) : AudioSys :=
  let paused :=
    match s.current with
    | none => s.instances
    | some i => s.instances.set i false
  ⟨paused ++ [true], some paused.length⟩

/-- How the widget's `fetch('/chat', ...)` resolves, from `sendMessage`'s
point of view: a rejected promise (network error), a response with
`!response.ok` (any non-2xx status), or a parsed success body. -/
inductive FetchOutcome where
  | networkError
  | httpError (status : Nat)
  | success (textResponse : String) (audioData : String)
  deriving Repr, DecidableEq

/-- The body the widget posts:
`JSON.stringify({ userMessage, chatHistory, prospectId })`. -/
structure ChatRequest where
  userMessage : String
  chatHistory : List Msg
  prospectId : String
  deriving Repr, DecidableEq

/-- The widget's mutable state: the in-memory `chatHistory`, the rendered
message log (text, sender class), the input field's value, and the audio
subsystem. -/
structure WidgetState where
  chatHistory : List Msg
  uiMessages : List (String × String)
  input : String
  audio : AudioSys
  deriving Repr, DecidableEq

/-- The widget's fixed apology, rendered on any failure. -/
def apologyText : String := "Sorry, I am having trouble connecting. Please try again."

/-- The widget's `sendMessage`, as one turn from send to settled promise.
Source order:
1. `const userMessage = chatInput.value.trim(); if (!userMessage) return;`
2. optimistic update: render the user message, clear the input, and
   `chatHistory.push({ role: 'user', content: userMessage })`;
3. add the `'...'` loading placeholder, then `fetch('/chat')` with
   `{ userMessage, chatHistory, prospectId }` — note the pushed `chatHistory`
   already contains the new user message;
4. on success: remove the placeholder, render the reply with its audio
   control, `chatHistory.push({ role: 'assistant', content: textResponse })`,
   and `playAudio(audioData)`;
5. on a network error or `!response.ok`: remove the placeholder and render
   the fixed apology; `chatHistory` is left as the optimistic push made it.
Returns the new state and the request body sent, if any. -/
def sendMessage (prospectId : String) (s : WidgetState) (outcome : FetchOutcome) :
    WidgetState × Option ChatRequest :=
  let userMessage := jsTrim s.input
  if userMessage = "" then
    (s, none)
  else
    let optimistic : WidgetState :=
      { s with
          uiMessages := s.uiMessages ++ [(userMessage, "user")],
          input := "",
          chatHistory := s.chatHistory ++ [⟨"user", userMessage⟩] }
    let request : ChatRequest :=
      ⟨userMessage, optimistic.chatHistory, prospectId⟩
    match outcome with
    | .success textResponse _ =>
        ({ optimistic with
             uiMessages := optimistic.uiMessages ++ [(textResponse, "ai")],
             chatHistory := optimistic.chatHistory ++ [⟨"assistant", textResponse⟩],
             audio := playAudio optimistic.audio },
         some request)
    | _ =>
        ({ optimistic with
             uiMessages := optimistic.uiMessages ++ [(apologyText, "ai")] },
         some request)

/-- Only the instance `currentAudio` points at may be playing — the
invariant behind "at most one audio element plays at a time". -/
def onlyCurrentPlays (s : AudioSys) : Prop :=
  ∀ i, s.instances[i]? = some true → s.current = some i

/-- All-whitespace input trims to the empty string, so `sendMessage`
hits its early `return`. -/
theorem jsTrim_eq_empty (s : String) (h : ∀ c ∈ s.data, jsIsWhitespace c) :
    jsTrim s = "" := by
  unfold jsTrim
  rw [List.dropWhile_eq_nil_iff.mpr h]
  rfl

/-- C1: with a found prospect, a prior transcript of N turns and a new
visitor message, the payload sent to the text-generation service is exactly
the system entry carrying the prospect's stored prompt verbatim, then the N
prior turns in their original order, then the visitor message as the final
user entry — N+2 entries in all. -/
theorem chat_turn_message_sequence (db : List Prospect) (body : ChatBody)
    (llm : List Msg → Except Unit String) (tts : String → Except Unit (List Nat))
    (pid : String) (p : Prospect) (history : List Msg)
    (hpid : body.prospectId = some pid) (hne : pid ≠ "")
    (hfind : findProspect db pid = some p)
    (hhist : body.chatHistory = some history) :
    (chatHandler db body llm tts).llmRequest =
      some (⟨"system", p.system_prompt⟩ :: (history ++ [⟨"user", body.userMessage⟩]))
    ∧ (⟨"system", p.system_prompt⟩ ::
        (history ++ [⟨"user", body.userMessage⟩]) : List Msg).length =
        history.length + 2 := by
  refine ⟨?_, by simp⟩
  simp only [chatHandler, hpid, if_neg hne, hfind, hhist]
  cases hl : llm (⟨"system", p.system_prompt⟩ ::
      (history ++ [⟨"user", body.userMessage⟩])) with
  | error e => simp [hl]
  | ok t =>
    cases ht : tts t with
    | error e => simp [hl, ht]
    | ok bs => simp [hl, ht]

/-- Witness for C1 at a concrete store, body and pair of oracles. -/
theorem chat_turn_message_sequence_witness :
    (chatHandler [⟨1, "Acme", "P", "x"⟩]
        ⟨"hi", some [⟨"user", "a"⟩, ⟨"assistant", "b"⟩], some "x"⟩
        (fun _ => .ok "r") (fun _ => .ok [1])).llmRequest =
      some [⟨"system", "P"⟩, ⟨"user", "a"⟩, ⟨"assistant", "b"⟩, ⟨"user", "hi"⟩]
    ∧ ([⟨"system", "P"⟩, ⟨"user", "a"⟩, ⟨"assistant", "b"⟩,
        ⟨"user", "hi"⟩] : List Msg).length = 4 :=
  chat_turn_message_sequence [⟨1, "Acme", "P", "x"⟩]
    ⟨"hi", some [⟨"user", "a"⟩, ⟨"assistant", "b"⟩], some "x"⟩
    (fun _ => .ok "r") (fun _ => .ok [1]) "x" ⟨1, "Acme", "P", "x"⟩
    [⟨"user", "a"⟩, ⟨"assistant", "b"⟩] rfl (by decide) rfl rfl

/-- C3: when the text-generation call succeeds but the speech-synthesis call
fails, the whole turn fails with the single generic 500 error and the
response is never a partial success carrying only the reply text. -/
theorem tts_failure_fails_whole_turn (db : List Prospect) (body : ChatBody)
    (llm : List Msg → Except Unit String) (tts : String → Except Unit (List Nat))
    (pid : String) (p : Prospect) (history : List Msg) (reply : String) (e : Unit)
    (hpid : body.prospectId = some pid) (hne : pid ≠ "")
    (hfind : findProspect db pid = some p)
    (hhist : body.chatHistory = some history)
    (hllm : llm (⟨"system", p.system_prompt⟩ ::
        (history ++ [⟨"user", body.userMessage⟩])) = .ok reply)
    (htts : tts reply = .error e) :
    (chatHandler db body llm tts).response = .err 500 "Failed to get AI response"
    ∧ ∀ t a, (chatHandler db body llm tts).response ≠ .ok t a := by
  have hresp : (chatHandler db body llm tts).response =
      .err 500 "Failed to get AI response" := by
    simp only [chatHandler, hpid, if_neg hne, hfind, hhist, hllm, htts]
  exact ⟨hresp, fun t a hok => by rw [hresp] at hok; exact ChatResponse.noConfusion hok⟩

/-- Witness for C3: a one-row store, a succeeding text oracle and a failing
speech oracle. -/
theorem tts_failure_fails_whole_turn_witness :
    (chatHandler [⟨1, "Acme", "P", "x"⟩] ⟨"hi", some [], some "x"⟩
        (fun _ => .ok "r") (fun _ => .error ())).response =
      .err 500 "Failed to get AI response"
    ∧ ∀ t a, (chatHandler [⟨1, "Acme", "P", "x"⟩] ⟨"hi", some [], some "x"⟩
        (fun _ => .ok "r") (fun _ => .error ())).response ≠ .ok t a :=
  tts_failure_fails_whole_turn [⟨1, "Acme", "P", "x"⟩] ⟨"hi", some [], some "x"⟩
    (fun _ => .ok "r") (fun _ => .error ()) "x" ⟨1, "Acme", "P", "x"⟩ [] "r" ()
    rfl (by decide) rfl rfl rfl rfl

/-- C4: an absent prospect identifier gets a 400 from the chat route and a
404 from the landing route; an identifier matching no stored prospect gets a
404 from both; in every case neither external service is called. -/
theorem missing_or_unknown_prospect (db : List Prospect) (u : String)
    (hist : Option (List Msg)) (llm : List Msg → Except Unit String)
    (tts : String → Except Unit (List Nat)) (pid : String)
    (hne : pid ≠ "") (hfind : findProspect db pid = none) :
    (chatHandler db ⟨u, hist, none⟩ llm tts).response = .err 400 "Missing Prospect ID"
    ∧ (chatHandler db ⟨u, hist, none⟩ llm tts).llmRequest = none
    ∧ (chatHandler db ⟨u, hist, none⟩ llm tts).ttsRequest = none
    ∧ (landingHandler db none).response = .notFoundLink
    ∧ landingStatus (landingHandler db none).response = 404
    ∧ (chatHandler db ⟨u, hist, some pid⟩ llm tts).response =
        .err 404 "Prospect brain not found"
    ∧ (chatHandler db ⟨u, hist, some pid⟩ llm tts).llmRequest = none
    ∧ (chatHandler db ⟨u, hist, some pid⟩ llm tts).ttsRequest = none
    ∧ (landingHandler db (some pid)).response = .notFound
    ∧ landingStatus (landingHandler db (some pid)).response = 404 := by
  refine ⟨rfl, rfl, rfl, rfl, rfl, ?_, ?_, ?_, ?_, ?_⟩ <;>
    simp only [chatHandler, landingHandler, if_neg hne, hfind, landingStatus]

/-- Witness for C4: the empty store and an identifier it cannot contain. -/
theorem missing_or_unknown_prospect_witness :
    (chatHandler [] ⟨"hi", some [], none⟩ (fun _ => .ok "r")
        (fun _ => .ok [1])).response = .err 400 "Missing Prospect ID"
    ∧ (chatHandler [] ⟨"hi", some [], none⟩ (fun _ => .ok "r")
        (fun _ => .ok [1])).llmRequest = none
    ∧ (chatHandler [] ⟨"hi", some [], none⟩ (fun _ => .ok "r")
        (fun _ => .ok [1])).ttsRequest = none
    ∧ (landingHandler [] none).response = .notFoundLink
    ∧ landingStatus (landingHandler [] none).response = 404
    ∧ (chatHandler [] ⟨"hi", some [], some "x"⟩ (fun _ => .ok "r")
        (fun _ => .ok [1])).response = .err 404 "Prospect brain not found"
    ∧ (chatHandler [] ⟨"hi", some [], some "x"⟩ (fun _ => .ok "r")
        (fun _ => .ok [1])).llmRequest = none
    ∧ (chatHandler [] ⟨"hi", some [], some "x"⟩ (fun _ => .ok "r")
        (fun _ => .ok [1])).ttsRequest = none
    ∧ (landingHandler [] (some "x")).response = .notFound
    ∧ landingStatus (landingHandler [] (some "x")).response = 404 :=
  missing_or_unknown_prospect [] "hi" (some []) (fun _ => .ok "r")
    (fun _ => .ok [1]) "x" (by decide) rfl

/-- C5: for the prospect with prompt "You sell widgets." receiving "hi" on an
empty transcript, the text-generation payload is exactly the two messages
system/"You sell widgets." and user/"hi"; for any bytes `B` a successful
synthesis returns, the audio field is "data:audio/mpeg;base64," followed by
the base64 encoding of `B` (for the bytes of "XY", that encoding is "WFk="). -/
theorem concrete_widgets_turn (reply : String) (B : List Nat) :
    (chatHandler [⟨1, "WidgetCo", "You sell widgets.", "p-123"⟩]
        ⟨"hi", some [], some "p-123"⟩
        (fun _ => .ok reply) (fun _ => .ok B)).llmRequest =
      some [⟨"system", "You sell widgets."⟩, ⟨"user", "hi"⟩]
    ∧ (chatHandler [⟨1, "WidgetCo", "You sell widgets.", "p-123"⟩]
        ⟨"hi", some [], some "p-123"⟩
        (fun _ => .ok reply) (fun _ => .ok B)).response =
      .ok reply ("data:audio/mpeg;base64," ++ String.mk (base64Encode B))
    ∧ String.mk (base64Encode [88, 89]) = "WFk=" :=
  ⟨rfl, rfl, by decide⟩

/-- C9: a prospect identifier that is present but the empty string is
indistinguishable from an absent one — the chat route answers the same 400
"Missing Prospect ID", the landing route the same generic 404, and neither
route touches the store. -/
theorem empty_prospect_id_is_absent (db : List Prospect) (u : String)
    (hist : Option (List Msg)) (llm : List Msg → Except Unit String)
    (tts : String → Except Unit (List Nat)) :
    chatHandler db ⟨u, hist, some ""⟩ llm tts = chatHandler db ⟨u, hist, none⟩ llm tts
    ∧ (chatHandler db ⟨u, hist, some ""⟩ llm tts).response =
        .err 400 "Missing Prospect ID"
    ∧ (chatHandler db ⟨u, hist, some ""⟩ llm tts).dbQuery = none
    ∧ landingHandler db (some "") = landingHandler db none
    ∧ (landingHandler db (some "")).response = .notFoundLink
    ∧ (landingHandler db (some "")).dbQuery = none :=
  ⟨rfl, rfl, rfl, rfl, rfl, rfl⟩

/-- C10: a body whose identifier resolves but whose `chatHistory` field is
absent makes it past the store lookup and then dies in the `catch` — the
generic 500, not a 400 — with neither external service called. -/
theorem absent_history_generic_500 (db : List Prospect) (u : String)
    (llm : List Msg → Except Unit String) (tts : String → Except Unit (List Nat))
    (pid : String) (p : Prospect)
    (hne : pid ≠ "") (hfind : findProspect db pid = some p) :
    (chatHandler db ⟨u, none, some pid⟩ llm tts).response =
      .err 500 "Failed to get AI response"
    ∧ (chatHandler db ⟨u, none, some pid⟩ llm tts).dbQuery = some pid
    ∧ (chatHandler db ⟨u, none, some pid⟩ llm tts).llmRequest = none
    ∧ (chatHandler db ⟨u, none, some pid⟩ llm tts).ttsRequest = none := by
  refine ⟨?_, ?_, ?_, ?_⟩ <;> simp only [chatHandler, if_neg hne, hfind]

/-- Witness for C10 at a one-row store. -/
theorem absent_history_generic_500_witness :
    (chatHandler [⟨1, "Acme", "P", "x"⟩] ⟨"hi", none, some "x"⟩
        (fun _ => .ok "r") (fun _ => .ok [1])).response =
      .err 500 "Failed to get AI response"
    ∧ (chatHandler [⟨1, "Acme", "P", "x"⟩] ⟨"hi", none, some "x"⟩
        (fun _ => .ok "r") (fun _ => .ok [1])).dbQuery = some "x"
    ∧ (chatHandler [⟨1, "Acme", "P", "x"⟩] ⟨"hi", none, some "x"⟩
        (fun _ => .ok "r") (fun _ => .ok [1])).llmRequest = none
    ∧ (chatHandler [⟨1, "Acme", "P", "x"⟩] ⟨"hi", none, some "x"⟩
        (fun _ => .ok "r") (fun _ => .ok [1])).ttsRequest = none :=
  absent_history_generic_500 [⟨1, "Acme", "P", "x"⟩] "hi"
    (fun _ => .ok "r") (fun _ => .ok [1]) "x" ⟨1, "Acme", "P", "x"⟩
    (by decide) rfl

/-- C6: on input that is empty or all whitespace, `sendMessage` returns at
the `if (!userMessage) return` guard — no request goes out and the widget
state (transcript included) is exactly what it was. -/
theorem whitespace_input_no_send (pid : String) (s : WidgetState) (o : FetchOutcome)
    (hws : ∀ c ∈ s.input.data, jsIsWhitespace c) :
    sendMessage pid s o = (s, none) := by
  simp [sendMessage, jsTrim_eq_empty s.input hws]

/-- Witness for C6 on the input " \t ". -/
theorem whitespace_input_no_send_witness :
    sendMessage "p" ⟨[], [], " \t ", initAudio⟩ .networkError =
      (⟨[], [], " \t ", initAudio⟩, none) :=
  whitespace_input_no_send "p" ⟨[], [], " \t ", initAudio⟩ .networkError (by decide)

/-- C2 fails as stated: after a failed send of "hi" from an empty transcript,
the transcript is not the empty history it held before the send — the
optimistic `chatHistory.push` of the visitor message is never rolled back, so
the failed turn does leave a trace. -/
theorem failed_turn_leaves_trace :
    ¬ ((sendMessage "p" ⟨[], [], "hi", initAudio⟩ .networkError).1.chatHistory
        = ([] : List Msg)) := by
  decide

/-- C2 amended: on a network or HTTP failure no assistant entry is added and
the fixed apology is rendered, but the transcript keeps the visitor message
pushed optimistically before the fetch — the next turn's request carries the
pre-send history plus exactly that one user entry. -/
theorem failed_turn_history (pid : String) (s : WidgetState) (o : FetchOutcome)
    (hne : jsTrim s.input ≠ "")
    (hfail : o = .networkError ∨ ∃ n, o = .httpError n) :
    (sendMessage pid s o).1.chatHistory =
        s.chatHistory ++ [⟨"user", jsTrim s.input⟩]
    ∧ (sendMessage pid s o).2 =
        some ⟨jsTrim s.input, s.chatHistory ++ [⟨"user", jsTrim s.input⟩], pid⟩
    ∧ (∀ m ∈ (sendMessage pid s o).1.chatHistory,
        m.role = "assistant" → m ∈ s.chatHistory)
    ∧ (sendMessage pid s o).1.uiMessages =
        s.uiMessages ++ [(jsTrim s.input, "user"), (apologyText, "ai")] := by
  have hmem : ∀ m ∈ s.chatHistory ++ [(⟨"user", jsTrim s.input⟩ : Msg)],
      m.role = "assistant" → m ∈ s.chatHistory := by
    intro m hm hrole
    rcases List.mem_append.mp hm with hm | hm
    · exact hm
    · rcases List.mem_singleton.mp hm with rfl
      simp at hrole
  rcases hfail with rfl | ⟨n, rfl⟩ <;>
    exact ⟨by simp [sendMessage, hne], by simp [sendMessage, hne],
           by simpa [sendMessage, hne] using hmem, by simp [sendMessage, hne]⟩

/-- Witness for the amended C2 on a failed send of "hi". -/
theorem failed_turn_history_witness :
    (sendMessage "p" ⟨[], [], "hi", initAudio⟩ .networkError).1.chatHistory =
        [] ++ [⟨"user", jsTrim "hi"⟩]
    ∧ (sendMessage "p" ⟨[], [], "hi", initAudio⟩ .networkError).2 =
        some ⟨jsTrim "hi", [] ++ [⟨"user", jsTrim "hi"⟩], "p"⟩
    ∧ (∀ m ∈ (sendMessage "p" ⟨[], [], "hi", initAudio⟩ .networkError).1.chatHistory,
        m.role = "assistant" → m ∈ ([] : List Msg))
    ∧ (sendMessage "p" ⟨[], [], "hi", initAudio⟩ .networkError).1.uiMessages =
        [] ++ [(jsTrim "hi", "user"), (apologyText, "ai")] :=
  failed_turn_history "p" ⟨[], [], "hi", initAudio⟩ .networkError
    (by decide) (Or.inl rfl)

/-- Inserting a row whose id is below everything in the list lands at the
end. -/
theorem insertDescById_all_lt (p : Prospect) (l : List Prospect)
    (h : ∀ q ∈ l, p.id < q.id) : insertDescById p l = l ++ [p] := by
  induction l with
  | nil => rfl
  | cons q qs ih =>
    have hq : p.id < q.id := h q (List.mem_cons_self q qs)
    rw [insertDescById, if_neg (by omega),
      ih (fun r hr => h r (List.mem_cons_of_mem q hr))]
    rfl

/-- On rows with strictly increasing ids, `ORDER BY id DESC` is exactly list
reversal. -/
theorem orderByIdDesc_eq_reverse (l : List Prospect)
    (h : l.Pairwise (fun a b => a.id < b.id)) :
    orderByIdDesc l = l.reverse := by
  induction l with
  | nil => rfl
  | cons p ps ih =>
    rw [orderByIdDesc, ih h.of_cons,
      insertDescById_all_lt p ps.reverse
        (fun q hq => (List.pairwise_cons.mp h).1 q (List.mem_reverse.mp hq)),
      List.reverse_cons]

/-- Store sanity: ids strictly increase along insertion order and stay below
the serial counter. -/
def storeWF (s : ProspectStore) : Prop :=
  s.rows.Pairwise (fun a b => a.id < b.id) ∧ ∀ r ∈ s.rows, r.id < s.nextId

/-- `INSERT` with the serial key preserves store sanity. -/
theorem createProspect_wf (s : ProspectStore) (n pr u : String)
    (h : storeWF s) : storeWF (createProspect s n pr u) := by
  obtain ⟨hp, hlt⟩ := h
  constructor
  · refine List.pairwise_append.mpr ⟨hp, List.pairwise_singleton _ _, ?_⟩
    intro a ha b hb
    rcases List.mem_singleton.mp hb with rfl
    exact hlt a ha
  · intro r hr
    rcases List.mem_append.mp hr with hr | hr
    · have := hlt r hr
      simp only [createProspect]
      omega
    · rcases List.mem_singleton.mp hr with rfl
      simp [createProspect]

/-- Any store built from the empty table by admin creates is sane. -/
theorem foldl_create_wf (ops : List (String × String × String))
    (s : ProspectStore) (h : storeWF s) :
    storeWF (ops.foldl (fun s op => createProspect s op.1 op.2.1 op.2.2) s) := by
  induction ops generalizing s with
  | nil => exact h
  | cons op ops ih => exact ih _ (createProspect_wf _ _ _ _ h)

/-- C7: on any store built by admin creates, the dashboard query returns
every stored row, most recently created first (reverse insertion order); in
particular, creating "Acme" then "Bolt" lists "Bolt" before "Acme". -/
theorem admin_list_most_recent_first (ops : List (String × String × String)) :
    adminList (buildStore ops) = (buildStore ops).rows.reverse
    ∧ (adminList (buildStore
        [("Acme", "pa", "ua"), ("Bolt", "pb", "ub")])).map (fun p => p.name) =
      ["Bolt", "Acme"] := by
  constructor
  · exact orderByIdDesc_eq_reverse _
      (foldl_create_wf ops emptyStore ⟨List.Pairwise.nil, by simp [emptyStore]⟩).1
  · decide

/-- C8: `playAudio` pauses whatever was playing, makes the new instance the
only playing one, points `currentAudio` at it, and preserves the invariant
that only the current instance can be playing — so at most one audio
instance plays at any moment, with no queueing. -/
theorem playAudio_exclusive (s : AudioSys) (h : onlyCurrentPlays s) :
    (playAudio s).current = some s.instances.length
    ∧ (playAudio s).instances[s.instances.length]? = some true
    ∧ (∀ i, i ≠ s.instances.length → (playAudio s).instances[i]? ≠ some true)
    ∧ onlyCurrentPlays (playAudio s) := by
  obtain ⟨paused, hplay, hlen, hnp⟩ :
      ∃ paused : List Bool,
        playAudio s = ⟨paused ++ [true], some paused.length⟩
        ∧ paused.length = s.instances.length
        ∧ ∀ i, paused[i]? ≠ some true := by
    cases hc : s.current with
    | none =>
      refine ⟨s.instances, by simp [playAudio, hc], rfl, ?_⟩
      intro i hcon
      have hcur := h i hcon
      rw [hc] at hcur
      exact Option.noConfusion hcur
    | some j =>
      refine ⟨s.instances.set j false, by simp [playAudio, hc],
        List.length_set .., ?_⟩
      intro i hcon
      by_cases hij : j = i
      · subst hij
        rw [List.getElem?_set_self'] at hcon
        cases hj : s.instances[j]? <;> simp [hj, Function.const] at hcon
      · rw [List.getElem?_set_ne hij] at hcon
        have hcur := h i hcon
        rw [hc] at hcur
        exact hij (Option.some.inj hcur)
  have hthird : ∀ i, i ≠ s.instances.length →
      (playAudio s).instances[i]? ≠ some true := by
    intro i hne hcon
    rw [hplay] at hcon
    rcases Nat.lt_or_ge i s.instances.length with hlt | hge
    · rw [List.getElem?_append_left (by simp only [hlen]; omega)] at hcon
      exact hnp i hcon
    · rw [List.getElem?_eq_none (by simp only [List.length_append,
        List.length_singleton, hlen]; omega)] at hcon
      exact Option.noConfusion hcon
  have hcur : (playAudio s).current = some s.instances.length := by
    rw [hplay]
    exact congrArg some hlen
  have hsecond : (playAudio s).instances[s.instances.length]? = some true := by
    rw [hplay, ← hlen]
    exact List.getElem?_concat_length paused true
  refine ⟨hcur, hsecond, hthird, ?_⟩
  intro i hp
  by_cases hi : i = s.instances.length
  · rw [hcur, hi]
  · exact absurd hp (hthird i hi)

/-- Witness for C8 on a widget that is already playing one instance. -/
theorem playAudio_exclusive_witness :
    (playAudio ⟨[true], some 0⟩).current = some (⟨[true], some 0⟩ : AudioSys).instances.length
    ∧ (playAudio ⟨[true], some 0⟩).instances[(⟨[true], some 0⟩ : AudioSys).instances.length]? =
        some true
    ∧ (∀ i, i ≠ (⟨[true], some 0⟩ : AudioSys).instances.length →
        (playAudio ⟨[true], some 0⟩).instances[i]? ≠ some true)
    ∧ onlyCurrentPlays (playAudio ⟨[true], some 0⟩) :=
  playAudio_exclusive ⟨[true], some 0⟩ (by
    intro i hcon
    cases i with
    | zero => rfl
    | succ n => simp at hcon)
